import Mathlib

/-!
Formal model of the anonymous-messages HTTP service implemented in
src/app.ts (Express + Mongoose, single file).

The service state is modelled as two lists of documents (links and
messages) kept in insertion order, matching the way the handlers use the
document store: findOne returns the first matching document, insertion
appends, deleteOne removes the first match, and save on a fetched
document replaces it in place.  JSON response bodies are modelled by an
inductive Json type; HTTP responses carry a status code and a body.
Nondeterministic inputs of the handlers (generated UUIDs, Math.random
draws, Date.now timestamps) are passed as explicit parameters, as the
spec directs for dependency-injected randomness.  JavaScript falsiness
of a possibly-absent string (undefined or the empty string) is modelled
on Option String.
-/

set_option maxRecDepth 10000

namespace Anony

/-- A Link document, after the linkSchema in src/app.ts. -/
structure Link where
  linkId : String
  userKey : String
  title : String
  description : String
  isActive : Bool
  createdAt : Nat
deriving Repr, DecidableEq

/-- A Message document, after the messageSchema in src/app.ts. -/
structure Message where
  messageId : String
  linkId : String
  content : String
  anonymousSenderId : String
  timestamp : Nat
deriving Repr, DecidableEq

/-- The document store: the Link collection and the Message collection,
in insertion order. -/
structure DB where
  links : List Link
  messages : List Message
deriving Repr, DecidableEq

/-- JSON values, the shape of every response body the handlers build. -/
inductive Json where
  | str : String → Json
  | num : Nat → Json
  | bool : Bool → Json
  | arr : List Json → Json
  | obj : List (String × Json) → Json
deriving Repr

/-- An HTTP response: status code and JSON body. -/
structure HttpResponse where
  status : Nat
  body : Json
deriving Repr

/-- Response builder for the uniform error shape the handlers use. -/
def errResp (status : Nat) (msg : String) : HttpResponse :=
  ⟨status, .obj [("error", .str msg)]⟩

/-- JavaScript falsiness of a possibly-absent string: undefined and the
empty string are falsy. -/
def falsyStr : Option String → Bool
  | none => true
  | some s => s == ""

/-- Model of the JavaScript expression (x or default) used for the title
and description defaults: the default is taken when x is undefined or
the empty string. -/
def jsOr (o : Option String) (d : String) : String :=
  match o with
  | none => d
  | some s => if s == "" then d else s

/-- Model of JavaScript String.prototype.trim: drop whitespace from both
ends. -/
def jsTrim (s : String) : String :=
  ⟨((s.data.dropWhile Char.isWhitespace).reverse.dropWhile Char.isWhitespace).reverse⟩

/-- The validateKey helper of src/app.ts: plain string equality. -/
def validateKey (providedKey storedKey : String) : Bool :=
  providedKey == storedKey

/-- The fixed adjective list of generateAnonymousSenderId. -/
def adjectives : List String :=
  ["Anonymous", "Secret", "Hidden", "Mystery", "Shadow"]

/-- The fixed animal list of generateAnonymousSenderId. -/
def animals : List String :=
  ["Fox", "Owl", "Cat", "Wolf", "Bear", "Eagle", "Raven"]

/-- The generateAnonymousSenderId helper of src/app.ts, with the three
Math.random draws injected: an index into the adjective list, an index
into the animal list, and the number draw giving 1..999. -/
def generateAnonymousSenderId (ra : Fin 5) (rb : Fin 7) (rn : Fin 999) : String :=
  adjectives.get (Fin.cast rfl ra) ++ animals.get (Fin.cast rfl rb) ++ toString (rn.val + 1)

/-- First matching Link document, as Link.findOne on linkId. -/
def findLink (db : DB) (linkId : String) : Option Link :=
  db.links.find? (fun l => l.linkId == linkId)

/-- First matching Message document, as Message.findOne on messageId. -/
def findMessage (db : DB) (messageId : String) : Option Message :=
  db.messages.find? (fun m => m.messageId == messageId)

/-- Replace the first element satisfying p by applying f, as a mongoose
save on the document returned by findOne. -/
def updateFirst (p : α → Bool) (f : α → α) : List α → List α
  | [] => []
  | x :: xs => if p x then f x :: xs else x :: updateFirst p f xs

/-- Messages of one link sorted newest first, as the query
Message.find on linkId with sort timestamp descending. -/
def sortByTimestampDesc (ms : List Message) : List Message :=
  ms.mergeSort (fun a b => decide (b.timestamp ≤ a.timestamp))

/-- Links sorted newest first, as the query Link.find with sort
createdAt descending. -/
def sortByCreatedAtDesc (ls : List Link) : List Link :=
  ls.mergeSort (fun a b => decide (b.createdAt ≤ a.createdAt))

/-- Serialization of a Message document in the messages array of the
get-messages response (the projection drops only the mongoose-internal
id and version fields). -/
def msgJson (m : Message) : Json :=
  .obj [("messageId", .str m.messageId), ("linkId", .str m.linkId),
        ("content", .str m.content),
        ("anonymousSenderId", .str m.anonymousSenderId),
        ("timestamp", .num m.timestamp)]

/-- The linkInfo block shared by the get-messages and link-info
responses. -/
def linkInfoJson (l : Link) : Json :=
  .obj [("linkId", .str l.linkId), ("title", .str l.title),
        ("description", .str l.description), ("isActive", .bool l.isActive),
        ("createdAt", .num l.createdAt)]

/-- One entry of the link-listing response: link metadata, message
count, and share path. -/
def linkWithCountJson (db : DB) (l : Link) : Json :=
  .obj [("linkId", .str l.linkId), ("title", .str l.title),
        ("description", .str l.description), ("isActive", .bool l.isActive),
        ("createdAt", .num l.createdAt),
        ("messageCount", .num (db.messages.countP (fun m => m.linkId == l.linkId))),
        ("shareUrl", .str ("/share/" ++ l.linkId))]

/-- Handler of POST /api/links/create.  Body fields key, title and
description; the fresh short link id and the creation time are
injected. -/
def createLink (db : DB) (key title description : Option String)
    (freshLinkId : String) (now : Nat) : HttpResponse × DB :=
  if falsyStr key || decide ((key.getD "").length < 6) then
    (errResp 400 "Key is required and must be at least 6 characters long", db)
  else
    let newLink : Link :=
      ⟨freshLinkId, key.getD "", jsOr title "Anonymous Messages",
       jsOr description "Send me anonymous messages", true, now⟩
    (⟨201, .obj [("success", .bool true), ("linkId", .str freshLinkId),
        ("shareUrl", .str ("/share/" ++ freshLinkId)),
        ("title", .str newLink.title),
        ("description", .str newLink.description),
        ("createdAt", .num newLink.createdAt)]⟩,
     { db with links := db.links ++ [newLink] })

/-- Handler of POST /api/messages/:linkId/send.  The fresh message id,
the three random draws of the sender name and the creation time are
injected. -/
def sendMessage (db : DB) (linkId : String) (content : Option String)
    (freshMessageId : String) (ra : Fin 5) (rb : Fin 7) (rn : Fin 999)
    (now : Nat) : HttpResponse × DB :=
  if falsyStr content || ((jsTrim (content.getD "")).length == 0) then
    (errResp 400 "Message content is required", db)
  else if decide (1000 < (content.getD "").length) then
    (errResp 400 "Message too long (max 1000 characters)", db)
  else
    match findLink db linkId with
    | none => (errResp 404 "Link not found", db)
    | some link =>
      if !link.isActive then
        (errResp 403 "This link is no longer accepting messages", db)
      else
        let anonymousSenderId := generateAnonymousSenderId ra rb rn
        let newMessage : Message :=
          ⟨freshMessageId, linkId, jsTrim (content.getD ""), anonymousSenderId, now⟩
        (⟨201, .obj [("success", .bool true),
            ("messageId", .str freshMessageId),
            ("anonymousSenderId", .str anonymousSenderId),
            ("timestamp", .num now),
            ("message", .str "Message sent successfully!")]⟩,
         { db with messages := db.messages ++ [newMessage] })

/-- Handler of GET /api/messages/:linkId (owner-only). -/
def getMessages (db : DB) (linkId : String) (key : Option String) :
    HttpResponse × DB :=
  if falsyStr key then (errResp 401 "Key is required", db)
  else
    match findLink db linkId with
    | none => (errResp 404 "Link not found", db)
    | some link =>
      if !validateKey (key.getD "") link.userKey then
        (errResp 401 "Invalid key", db)
      else
        let messages := sortByTimestampDesc
          (db.messages.filter (fun m => m.linkId == linkId))
        (⟨200, .obj [("success", .bool true),
            ("linkInfo", linkInfoJson link),
            ("messages", .arr (messages.map msgJson)),
            ("totalMessages", .num messages.length)]⟩, db)

/-- Handler of GET /api/links (owner-only listing). -/
def getLinks (db : DB) (key : Option String) : HttpResponse × DB :=
  if falsyStr key then (errResp 401 "Key is required", db)
  else
    let links := sortByCreatedAtDesc
      (db.links.filter (fun l => l.userKey == key.getD ""))
    (⟨200, .obj [("success", .bool true),
        ("links", .arr (links.map (linkWithCountJson db))),
        ("totalLinks", .num links.length)]⟩, db)

/-- Handler of DELETE /api/messages/:messageId (owner-only). -/
def deleteMessage (db : DB) (messageId : String) (key : Option String) :
    HttpResponse × DB :=
  if falsyStr key then (errResp 401 "Key is required", db)
  else
    match findMessage db messageId with
    | none => (errResp 404 "Message not found", db)
    | some message =>
      match findLink db message.linkId with
      | none => (errResp 404 "Associated link not found", db)
      | some link =>
        if !validateKey (key.getD "") link.userKey then
          (errResp 401 "Invalid key", db)
        else
          (⟨200, .obj [("success", .bool true),
              ("message", .str "Message deleted successfully")]⟩,
           { db with
             messages := db.messages.eraseP (fun m => m.messageId == messageId) })

/-- Handler of POST /api/links/:linkId/toggle-visibility (owner-only). -/
def toggleVisibility (db : DB) (linkId : String) (key : Option String) :
    HttpResponse × DB :=
  if falsyStr key then (errResp 401 "Key is required", db)
  else
    match findLink db linkId with
    | none => (errResp 404 "Link not found", db)
    | some link =>
      if !validateKey (key.getD "") link.userKey then
        (errResp 401 "Invalid key", db)
      else
        let toggled : Link := { link with isActive := !link.isActive }
        (⟨200, .obj [("success", .bool true),
            ("linkId", .str toggled.linkId),
            ("isActive", .bool toggled.isActive),
            ("message", .str ("Link " ++
              (if toggled.isActive then "activated" else "deactivated") ++
              " successfully"))]⟩,
         { db with links := (updateFirst (fun l => l.linkId == linkId)
             (fun l => { l with isActive := !l.isActive }) db.links) })

/-- Handler of GET /api/links/:linkId/info (public). -/
def getLinkInfo (db : DB) (linkId : String) : HttpResponse × DB :=
  match findLink db linkId with
  | none => (errResp 404 "Link not found", db)
  | some link =>
    (⟨200, .obj [("success", .bool true), ("linkInfo", linkInfoJson link)]⟩, db)

mutual

/-- Whether a JSON value contains, anywhere in its tree, an object field
with the given name. -/
def Json.hasField (n : String) : Json → Bool
  | .str _ => false
  | .num _ => false
  | .bool _ => false
  | .arr xs => Json.hasFieldList n xs
  | .obj fs => Json.hasFieldPairs n fs

/-- hasField over a JSON array. -/
def Json.hasFieldList (n : String) : List Json → Bool
  | [] => false
  | j :: js => Json.hasField n j || Json.hasFieldList n js

/-- hasField over the field list of a JSON object. -/
def Json.hasFieldPairs (n : String) : List (String × Json) → Bool
  | [] => false
  | (k, v) :: fs => k == n || Json.hasField n v || Json.hasFieldPairs n fs

end

/-- A small concrete store used by the concrete witnesses: one active
link and one message attached to it. -/
def dbEx : DB :=
  ⟨[⟨"a1b2c3d4", "secret123", "T", "D", true, 10⟩],
   [⟨"m1", "a1b2c3d4", "hello", "SecretFox7", 5⟩]⟩

/-- A concrete store whose only link is inactive. -/
def dbInactive : DB :=
  ⟨[⟨"a1b2c3d4", "secret123", "T", "D", false, 10⟩], []⟩

/-- A concrete content string of 1000 letters followed by one space:
its raw length is 1001 but its trimmed length is 1000. -/
def longContent : String :=
  ⟨List.replicate 1000 'a' ++ [' ']⟩

/-- Reduction of hasField on a string leaf. -/
theorem hasField_str (n s : String) : Json.hasField n (.str s) = false := rfl

/-- Reduction of hasField on a number leaf. -/
theorem hasField_num (n : String) (k : Nat) : Json.hasField n (.num k) = false := rfl

/-- Reduction of hasField on a boolean leaf. -/
theorem hasField_bool (n : String) (b : Bool) : Json.hasField n (.bool b) = false := rfl

/-- Reduction of hasField on an array node. -/
theorem hasField_arr (n : String) (xs : List Json) :
    Json.hasField n (.arr xs) = Json.hasFieldList n xs := rfl

/-- Reduction of hasField on an object node. -/
theorem hasField_obj (n : String) (fs : List (String × Json)) :
    Json.hasField n (.obj fs) = Json.hasFieldPairs n fs := rfl

/-- Reduction of hasFieldPairs on an empty field list. -/
theorem hasFieldPairs_nil (n : String) : Json.hasFieldPairs n [] = false := rfl

/-- Reduction of hasFieldPairs on a field-list cons. -/
theorem hasFieldPairs_cons (n k : String) (v : Json) (fs : List (String × Json)) :
    Json.hasFieldPairs n ((k, v) :: fs) =
      (k == n || Json.hasField n v || Json.hasFieldPairs n fs) := rfl

/-- No error response carries a userKey field. -/
theorem errResp_no_userKey (s : Nat) (m : String) :
    (errResp s m).body.hasField "userKey" = false := rfl

/-- The linkInfo block carries no userKey field. -/
theorem linkInfoJson_no_userKey (l : Link) :
    (linkInfoJson l).hasField "userKey" = false := rfl

/-- A serialized message carries no userKey field. -/
theorem msgJson_no_userKey (m : Message) :
    (msgJson m).hasField "userKey" = false := rfl

/-- A link-listing entry carries no userKey field. -/
theorem linkWithCountJson_no_userKey (db : DB) (l : Link) :
    (linkWithCountJson db l).hasField "userKey" = false := rfl

/-- A serialized message array carries no userKey field. -/
theorem hasFieldList_map_msgJson (ms : List Message) :
    Json.hasFieldList "userKey" (ms.map msgJson) = false := by
  induction ms with
  | nil => rfl
  | cons m ms ih => simp [Json.hasFieldList, msgJson_no_userKey, ih]

/-- A link-listing array carries no userKey field. -/
theorem hasFieldList_map_linkWithCountJson (db : DB) (ls : List Link) :
    Json.hasFieldList "userKey" (ls.map (linkWithCountJson db)) = false := by
  induction ls with
  | nil => rfl
  | cons l ls ih => simp [Json.hasFieldList, linkWithCountJson_no_userKey, ih]

/-- Searching the store after an in-place update: if the update
preserves the search predicate, findOne after updateFirst returns the
updated first match. -/
theorem find?_updateFirst (p : α → Bool) (f : α → α)
    (h : ∀ x, p x = true → p (f x) = true) :
    ∀ xs : List α, (updateFirst p f xs).find? p = (xs.find? p).map f := by
  intro xs
  induction xs with
  | nil => rfl
  | cons x xs ih =>
    simp only [updateFirst]
    by_cases hx : p x = true
    · rw [if_pos hx, List.find?_cons_of_pos _ (h x hx),
        List.find?_cons_of_pos _ hx]
      rfl
    · rw [if_neg hx, List.find?_cons_of_neg, List.find?_cons_of_neg _ hx, ih]
      exact hx

/-- Two successive in-place updates of the first match collapse to one
composed update when the first update preserves the predicate. -/
theorem updateFirst_updateFirst (p : α → Bool) (f g : α → α)
    (h : ∀ x, p x = true → p (g x) = true) :
    ∀ xs : List α,
      updateFirst p f (updateFirst p g xs) = updateFirst p (fun x => f (g x)) xs := by
  intro xs
  induction xs with
  | nil => rfl
  | cons x xs ih =>
    by_cases hx : p x = true
    · simp [updateFirst, hx, h x hx]
    · simp [updateFirst, hx, ih]

/-- An in-place update that fixes every matching element is the
identity. -/
theorem updateFirst_eq_self (p : α → Bool) (f : α → α) :
    ∀ xs : List α, (∀ x ∈ xs, p x = true → f x = x) → updateFirst p f xs = xs := by
  intro xs
  induction xs with
  | nil => intro _; rfl
  | cons x xs ih =>
    intro h
    simp only [updateFirst]
    by_cases hx : p x = true
    · rw [if_pos hx, h x (List.mem_cons_self x xs) hx]
    · rw [if_neg hx, ih (fun y hy hpy => h y (List.mem_cons_of_mem x hy) hpy)]

/-- Store change of a successful visibility toggle: the first link with
the requested id has its isActive flag flipped in place. -/
theorem toggle_snd_of_success (db : DB) (linkId : String) (l : Link)
    (hl : findLink db linkId = some l) (hke : l.userKey ≠ "") :
    (toggleVisibility db linkId (some l.userKey)).snd =
      { db with links := (updateFirst (fun x => x.linkId == linkId)
          (fun x => { x with isActive := !x.isActive }) db.links) } := by
  simp [toggleVisibility, falsyStr, hke, hl, validateKey]

/-- The message sort returns a permutation of its input. -/
theorem sortByTimestampDesc_perm (ms : List Message) :
    (sortByTimestampDesc ms).Perm ms :=
  List.mergeSort_perm ms _

/-- The message sort puts timestamps in descending order. -/
theorem sortByTimestampDesc_sorted (ms : List Message) :
    List.Pairwise (fun a b : Message => b.timestamp ≤ a.timestamp)
      (sortByTimestampDesc ms) := by
  unfold sortByTimestampDesc
  refine List.Pairwise.imp ?_ (List.sorted_mergeSort ?_ ?_ ms)
  · intro a b h
    exact of_decide_eq_true h
  · intro a b c hab hbc
    have h1 := of_decide_eq_true hab
    have h2 := of_decide_eq_true hbc
    exact decide_eq_true (by omega)
  · intro a b
    simp only [Bool.or_eq_true, decide_eq_true_eq]
    omega

/-- The link sort returns a permutation of its input. -/
theorem sortByCreatedAtDesc_perm (ls : List Link) :
    (sortByCreatedAtDesc ls).Perm ls :=
  List.mergeSort_perm ls _

/-- The link sort puts creation times in descending order. -/
theorem sortByCreatedAtDesc_sorted (ls : List Link) :
    List.Pairwise (fun a b : Link => b.createdAt ≤ a.createdAt)
      (sortByCreatedAtDesc ls) := by
  unfold sortByCreatedAtDesc
  refine List.Pairwise.imp ?_ (List.sorted_mergeSort ?_ ?_ ls)
  · intro a b h
    exact of_decide_eq_true h
  · intro a b c hab hbc
    have h1 := of_decide_eq_true hab
    have h2 := of_decide_eq_true hbc
    exact decide_eq_true (by omega)
  · intro a b
    simp only [Bool.or_eq_true, decide_eq_true_eq]
    omega

/-- Deleting the first match from a list in which at most one element
can match (pairwise, a match forces every later element to be a
non-match) removes every match. -/
theorem eraseP_eq_filter_of_unique (p : α → Bool) :
    ∀ xs : List α, List.Pairwise (fun a b => p a = true → p b = false) xs →
      xs.eraseP p = xs.filter (fun x => !p x) := by
  intro xs
  induction xs with
  | nil => intro _; rfl
  | cons x xs ih =>
    intro h
    have hrest := (List.pairwise_cons.mp h).1
    by_cases hx : p x = true
    · rw [List.eraseP_cons_of_pos hx, List.filter_cons_of_neg (by simp [hx])]
      rw [List.filter_eq_self.mpr]
      intro y hy
      simp [hrest y hy hx]
    · rw [List.eraseP_cons_of_neg (by simp [hx]),
        List.filter_cons_of_pos (by simp [hx]),
        ih (List.pairwise_cons.mp h).2]

/-- C1: for every store state and every request to any of the seven
operations (link creation, message sending, message retrieval, link
listing, message deletion, visibility toggle, public link info), the
response body, success or error, contains no field named userKey
anywhere in its JSON tree. -/
theorem C1_userKey_never_in_response (db : DB)
    (key title description content : Option String)
    (lid mid fid : String) (ra : Fin 5) (rb : Fin 7) (rn : Fin 999) (now : Nat) :
    (createLink db key title description fid now).fst.body.hasField "userKey" = false ∧
    (sendMessage db lid content mid ra rb rn now).fst.body.hasField "userKey" = false ∧
    (getMessages db lid key).fst.body.hasField "userKey" = false ∧
    (getLinks db key).fst.body.hasField "userKey" = false ∧
    (deleteMessage db mid key).fst.body.hasField "userKey" = false ∧
    (toggleVisibility db lid key).fst.body.hasField "userKey" = false ∧
    (getLinkInfo db lid).fst.body.hasField "userKey" = false := by
  unfold createLink sendMessage getMessages getLinks deleteMessage
    toggleVisibility getLinkInfo
  refine ⟨?_, ?_, ?_, ?_, ?_, ?_, ?_⟩ <;>
    (repeat' split) <;>
    simp [errResp, hasField_obj, hasFieldPairs_cons, hasFieldPairs_nil,
      hasField_str, hasField_num, hasField_bool, hasField_arr,
      linkInfoJson_no_userKey, hasFieldList_map_msgJson,
      hasFieldList_map_linkWithCountJson]

end Anony

namespace Anony

example : (getMessages dbEx "a1b2c3d4" (some "secret123")).fst.status = 200 := rfl
example : (getMessages dbEx "a1b2c3d4" (some "wrong")).fst.status = 401 := rfl
example : (getMessages dbEx "zzz" (some "secret123")).fst.status = 404 := rfl
example : (msgJson ⟨"a","b","c","d",3⟩).hasField "userKey" = false := rfl
example : jsTrim "  hi  " = "hi" := rfl
example : jsTrim "   " = "" := rfl

/-- C9: for every outcome of the injected random draws, the generated
anonymous sender name is one adjective from the fixed adjective list,
followed by one animal from the fixed animal list, followed by a decimal
integer between 1 and 999 inclusive. -/
theorem C9_sender_name_pattern (ra : Fin 5) (rb : Fin 7) (rn : Fin 999) :
    ∃ a ∈ adjectives, ∃ b ∈ animals, ∃ k : Nat,
      1 ≤ k ∧ k ≤ 999 ∧ generateAnonymousSenderId ra rb rn = a ++ b ++ toString k := by
  refine ⟨adjectives.get (Fin.cast rfl ra),
          List.get_mem adjectives (Fin.cast rfl ra).val (Fin.cast rfl ra).isLt,
          animals.get (Fin.cast rfl rb),
          List.get_mem animals (Fin.cast rfl rb).val (Fin.cast rfl rb).isLt,
          rn.val + 1, ?_, ?_, rfl⟩
  · omega
  · have := rn.isLt; omega

/-- C10: for every owner-only request (message retrieval, message
deletion, visibility toggle) whose key query parameter is absent, the
handler returns the unauthorized Key-is-required error before touching
the store: the response is the same fixed 401 error for every store
state (so it is unauthorized, not not-found, even when the referenced
link or message does not exist) and the store is unchanged. -/
theorem C10_missing_key_unauthorized (db : DB) (id : String) :
    getMessages db id none = (errResp 401 "Key is required", db) ∧
    deleteMessage db id none = (errResp 401 "Key is required", db) ∧
    toggleVisibility db id none = (errResp 401 "Key is required", db) ∧
    (errResp 401 "Key is required").status = 401 :=
  ⟨rfl, rfl, rfl, rfl⟩

/-- C7: a link-creation request whose key is absent, empty, or shorter
than 6 characters yields the 400 validation error naming the key-length
rule and leaves the store unchanged; with a key of at least 6 characters
a new link with isActive set to true is appended to the link store and
the response is 201. -/
theorem C7_create_link_key_validation (db : DB)
    (key title description : Option String) (lid : String) (now : Nat) :
    ((key.getD "").length < 6 →
      createLink db key title description lid now =
        (errResp 400 "Key is required and must be at least 6 characters long",
         db)) ∧
    (∀ k : String, key = some k → 6 ≤ k.length →
      (createLink db key title description lid now).fst.status = 201 ∧
      (createLink db key title description lid now).snd.links =
        db.links ++ [⟨lid, k, jsOr title "Anonymous Messages",
          jsOr description "Send me anonymous messages", true, now⟩] ∧
      (createLink db key title description lid now).snd.messages =
        db.messages) := by
  constructor
  · intro h
    have hc : (falsyStr key || decide ((key.getD "").length < 6)) = true := by
      simp [h]
    simp [createLink, hc]
  · rintro k rfl h
    have hk : k ≠ "" := by
      intro he; subst he; simp at h
    have hc : ¬ (falsyStr (some k) = true ∨ k.length < 6) := by
      simp [falsyStr, hk]
      omega
    simp [createLink, hc]

/-- C4: for every link in the store, toggling visibility twice with the
link's own key restores the store exactly (in particular the link's
isActive flag returns to its original value), and toggling once with
any wrong key yields a 401 unauthorized response and leaves the store
unchanged. -/
theorem C4_toggle_involution (db : DB) (linkId : String) (l : Link)
    (hl : findLink db linkId = some l) :
    (toggleVisibility (toggleVisibility db linkId (some l.userKey)).snd
        linkId (some l.userKey)).snd = db ∧
    (∀ k : String, k ≠ l.userKey →
      (toggleVisibility db linkId (some k)).fst.status = 401 ∧
      (toggleVisibility db linkId (some k)).snd = db) := by
  constructor
  · by_cases hke : l.userKey = ""
    · simp [toggleVisibility, falsyStr, hke]
    · have hp : ∀ x : Link, (x.linkId == linkId) = true →
          (({ x with isActive := !x.isActive } : Link).linkId == linkId) = true :=
        fun x hx => hx
      have h1 := toggle_snd_of_success db linkId l hl hke
      have hl2 : findLink (toggleVisibility db linkId (some l.userKey)).snd linkId =
          some { l with isActive := !l.isActive } := by
        rw [h1]
        show (updateFirst (fun x : Link => x.linkId == linkId)
          (fun x => { x with isActive := !x.isActive }) db.links).find?
            (fun x => x.linkId == linkId) = _
        rw [find?_updateFirst _ _ hp db.links]
        rw [show db.links.find? (fun x : Link => x.linkId == linkId) = some l from hl]
        rfl
      have h2 := toggle_snd_of_success (toggleVisibility db linkId (some l.userKey)).snd
        linkId { l with isActive := !l.isActive } hl2 hke
      rw [h2, h1]
      show DB.mk (updateFirst (fun x : Link => x.linkId == linkId)
        (fun x => { x with isActive := !x.isActive })
        (updateFirst (fun x : Link => x.linkId == linkId)
          (fun x => { x with isActive := !x.isActive }) db.links)) db.messages = db
      rw [updateFirst_updateFirst _ _ _ hp db.links]
      rw [updateFirst_eq_self _ _ db.links (fun x _ _ => by simp)]
  · intro k hk
    by_cases hke : k = ""
    · subst hke; simp [toggleVisibility, falsyStr, errResp]
    · have hv : validateKey k l.userKey = false := by simp [validateKey, hk]
      simp [toggleVisibility, falsyStr, hke, hl, hv, errResp]

/-- C3: for every send-message request whose content passes validation
(nonempty after trimming, raw length at most 1000): when no link with
the given id exists the response is the 404 not-found error and the
store is unchanged; when the link exists but is inactive the response
is the 403 forbidden error and the store is unchanged; when the link
exists and is active a new message holding the trimmed content, the
fresh message id and the generated anonymous sender name is appended to
the message store, and the 201 response returns that message id, sender
name and timestamp. -/
theorem C3_send_message_cases (db : DB) (linkId c mid : String)
    (ra : Fin 5) (rb : Fin 7) (rn : Fin 999) (now : Nat)
    (hc1 : 1 ≤ (jsTrim c).length) (hc2 : c.length ≤ 1000) :
    (findLink db linkId = none →
      sendMessage db linkId (some c) mid ra rb rn now =
        (errResp 404 "Link not found", db)) ∧
    (∀ l : Link, findLink db linkId = some l → l.isActive = false →
      sendMessage db linkId (some c) mid ra rb rn now =
        (errResp 403 "This link is no longer accepting messages", db)) ∧
    (∀ l : Link, findLink db linkId = some l → l.isActive = true →
      sendMessage db linkId (some c) mid ra rb rn now =
        (⟨201, .obj [("success", .bool true), ("messageId", .str mid),
            ("anonymousSenderId", .str (generateAnonymousSenderId ra rb rn)),
            ("timestamp", .num now),
            ("message", .str "Message sent successfully!")]⟩,
         { db with messages := db.messages ++
             [⟨mid, linkId, jsTrim c, generateAnonymousSenderId ra rb rn, now⟩] })) := by
  have hcne : c ≠ "" := by
    intro he
    subst he
    simp [jsTrim] at hc1
  have htne : ¬ (jsTrim c).length = 0 := by omega
  have hlen : ¬ (1000 < c.length) := by omega
  refine ⟨?_, ?_, ?_⟩
  · intro hnone
    simp [sendMessage, falsyStr, hcne, htne, hlen, hnone]
  · intro l hl hla
    simp [sendMessage, falsyStr, hcne, htne, hlen, hl, hla]
  · intro l hl hla
    simp [sendMessage, falsyStr, hcne, htne, hlen, hl, hla]

/-- Witness: C3 at concrete stores, covering the not-found, inactive
and success branches. -/
theorem C3_send_message_cases_witness :
    sendMessage dbEx "zzz" (some "hello") "m2" 0 0 0 11 =
      (errResp 404 "Link not found", dbEx) ∧
    sendMessage dbInactive "a1b2c3d4" (some "hello") "m2" 0 0 0 11 =
      (errResp 403 "This link is no longer accepting messages", dbInactive) ∧
    sendMessage dbEx "a1b2c3d4" (some "hello") "m2" 0 0 0 11 =
      (⟨201, .obj [("success", .bool true), ("messageId", .str "m2"),
          ("anonymousSenderId", .str (generateAnonymousSenderId 0 0 0)),
          ("timestamp", .num 11),
          ("message", .str "Message sent successfully!")]⟩,
       { dbEx with messages := dbEx.messages ++
           [⟨"m2", "a1b2c3d4", jsTrim "hello", generateAnonymousSenderId 0 0 0, 11⟩] }) :=
  ⟨(C3_send_message_cases dbEx "zzz" "hello" "m2" 0 0 0 11
      (by decide) (by decide)).1 rfl,
   ((C3_send_message_cases dbInactive "a1b2c3d4" "hello" "m2" 0 0 0 11
      (by decide) (by decide)).2.1
     ⟨"a1b2c3d4", "secret123", "T", "D", false, 10⟩ rfl rfl),
   ((C3_send_message_cases dbEx "a1b2c3d4" "hello" "m2" 0 0 0 11
      (by decide) (by decide)).2.2
     ⟨"a1b2c3d4", "secret123", "T", "D", true, 10⟩ rfl rfl)⟩

/-- C5: for every message-retrieval request with the correct key of an
existing link, the 200 response carries the link's non-secret metadata,
the serialized messages of exactly that link sorted by timestamp
descending, and a totalMessages count equal to their number; the sorted
list is a permutation of the store messages whose linkId is the
requested one, and the matched link's id is the requested id. -/
theorem C5_get_messages_correct_key (db : DB) (linkId : String) (l : Link)
    (hl : findLink db linkId = some l) (hke : l.userKey ≠ "") :
    getMessages db linkId (some l.userKey) =
      (⟨200, .obj [("success", .bool true),
          ("linkInfo", linkInfoJson l),
          ("messages", .arr ((sortByTimestampDesc
            (db.messages.filter (fun m => m.linkId == linkId))).map msgJson)),
          ("totalMessages", .num (sortByTimestampDesc
            (db.messages.filter (fun m => m.linkId == linkId))).length)]⟩, db) ∧
    (sortByTimestampDesc (db.messages.filter (fun m => m.linkId == linkId))).Perm
      (db.messages.filter (fun m => m.linkId == linkId)) ∧
    List.Pairwise (fun a b : Message => b.timestamp ≤ a.timestamp)
      (sortByTimestampDesc (db.messages.filter (fun m => m.linkId == linkId))) ∧
    (∀ m : Message, m ∈ db.messages.filter (fun m => m.linkId == linkId) ↔
      m ∈ db.messages ∧ m.linkId = linkId) ∧
    l.linkId = linkId := by
  refine ⟨?_, sortByTimestampDesc_perm _, sortByTimestampDesc_sorted _, ?_, ?_⟩
  · simp [getMessages, falsyStr, hke, hl, validateKey]
  · intro m
    simp [List.mem_filter]
  · have := List.find?_some hl
    simpa using this

/-- Witness: C5 at the concrete store dbEx with its correct key. -/
theorem C5_get_messages_correct_key_witness :
    getMessages dbEx "a1b2c3d4" (some "secret123") =
      (⟨200, .obj [("success", .bool true),
          ("linkInfo", linkInfoJson ⟨"a1b2c3d4", "secret123", "T", "D", true, 10⟩),
          ("messages", .arr ((sortByTimestampDesc
            (dbEx.messages.filter (fun m => m.linkId == "a1b2c3d4"))).map msgJson)),
          ("totalMessages", .num (sortByTimestampDesc
            (dbEx.messages.filter (fun m => m.linkId == "a1b2c3d4"))).length)]⟩,
       dbEx) ∧
    List.Pairwise (fun a b : Message => b.timestamp ≤ a.timestamp)
      (sortByTimestampDesc (dbEx.messages.filter (fun m => m.linkId == "a1b2c3d4"))) :=
  ⟨(C5_get_messages_correct_key dbEx "a1b2c3d4"
      ⟨"a1b2c3d4", "secret123", "T", "D", true, 10⟩ rfl (by decide)).1,
   (C5_get_messages_correct_key dbEx "a1b2c3d4"
      ⟨"a1b2c3d4", "secret123", "T", "D", true, 10⟩ rfl (by decide)).2.2.1⟩

/-- C6: for every message-deletion request with a provided (nonempty)
key: a missing message yields the 404 message-not-found error; a
message whose owning link is missing yields the distinct 404
associated-link-not-found error; a key differing from the owning link's
userKey yields 401 and deletes nothing; with the correct key exactly
the first stored message with that id is removed and, when message ids
are pairwise distinct (the store invariant), no message with the
deleted id remains, so a later retrieval cannot include it. -/
theorem C6_delete_message_cases (db : DB) (mid k : String) (hk : k ≠ "") :
    (findMessage db mid = none →
      deleteMessage db mid (some k) = (errResp 404 "Message not found", db)) ∧
    (∀ m : Message, findMessage db mid = some m → findLink db m.linkId = none →
      deleteMessage db mid (some k) =
        (errResp 404 "Associated link not found", db)) ∧
    (∀ m l, findMessage db mid = some m → findLink db m.linkId = some l →
      k ≠ l.userKey →
      deleteMessage db mid (some k) = (errResp 401 "Invalid key", db)) ∧
    (∀ m l, findMessage db mid = some m → findLink db m.linkId = some l →
      k = l.userKey →
      deleteMessage db mid (some k) =
        (⟨200, .obj [("success", .bool true),
            ("message", .str "Message deleted successfully")]⟩,
         { db with messages := db.messages.eraseP (fun x => x.messageId == mid) }) ∧
      (List.Pairwise (fun a b : Message => a.messageId ≠ b.messageId) db.messages →
        ∀ x ∈ (deleteMessage db mid (some k)).snd.messages, x.messageId ≠ mid)) := by
  refine ⟨?_, ?_, ?_, ?_⟩
  · intro hm
    simp [deleteMessage, falsyStr, hk, hm]
  · intro m hm hl
    simp [deleteMessage, falsyStr, hk, hm, hl]
  · intro m l hm hl hkm
    have hv : validateKey k l.userKey = false := by simp [validateKey, hkm]
    simp [deleteMessage, falsyStr, hk, hm, hl, hv]
  · intro m l hm hl hkm
    have hv : validateKey k l.userKey = true := by simp [validateKey, hkm]
    have hres : deleteMessage db mid (some k) =
        (⟨200, .obj [("success", .bool true),
            ("message", .str "Message deleted successfully")]⟩,
         { db with messages := db.messages.eraseP (fun x => x.messageId == mid) }) := by
      simp [deleteMessage, falsyStr, hk, hm, hl, hv]
    refine ⟨hres, ?_⟩
    intro hnd x hx
    rw [hres] at hx
    have hpu : List.Pairwise
        (fun a b : Message => (a.messageId == mid) = true → (b.messageId == mid) = false)
        db.messages := by
      refine hnd.imp ?_
      intro a b hab ha
      have ha' : a.messageId = mid := by simpa using ha
      have hb : b.messageId ≠ mid := fun hbe => hab (ha'.trans hbe.symm)
      simpa using hb
    have hx' : x ∈ db.messages.eraseP (fun y => y.messageId == mid) := hx
    rw [eraseP_eq_filter_of_unique _ db.messages hpu] at hx'
    have := (List.mem_filter.mp hx').2
    simpa using this

/-- Witness: C6 at the concrete store dbEx, covering the missing
message, orphaned message, wrong key and successful-deletion cases. -/
theorem C6_delete_message_cases_witness :
    deleteMessage dbEx "nope" (some "secret123") =
      (errResp 404 "Message not found", dbEx) ∧
    deleteMessage ⟨[], [⟨"m9", "ghost", "hi", "X", 1⟩]⟩ "m9" (some "secret123") =
      (errResp 404 "Associated link not found", ⟨[], [⟨"m9", "ghost", "hi", "X", 1⟩]⟩) ∧
    deleteMessage dbEx "m1" (some "wrong1") = (errResp 401 "Invalid key", dbEx) ∧
    deleteMessage dbEx "m1" (some "secret123") =
      (⟨200, .obj [("success", .bool true),
          ("message", .str "Message deleted successfully")]⟩,
       { dbEx with messages := dbEx.messages.eraseP (fun x => x.messageId == "m1") }) :=
  ⟨(C6_delete_message_cases dbEx "nope" "secret123" (by decide)).1 rfl,
   (C6_delete_message_cases ⟨[], [⟨"m9", "ghost", "hi", "X", 1⟩]⟩ "m9" "secret123"
      (by decide)).2.1 ⟨"m9", "ghost", "hi", "X", 1⟩ rfl rfl,
   ((C6_delete_message_cases dbEx "m1" "wrong1" (by decide)).2.2.1
      ⟨"m1", "a1b2c3d4", "hello", "SecretFox7", 5⟩
      ⟨"a1b2c3d4", "secret123", "T", "D", true, 10⟩ rfl rfl (by decide)),
   ((C6_delete_message_cases dbEx "m1" "secret123" (by decide)).2.2.2
      ⟨"m1", "a1b2c3d4", "hello", "SecretFox7", 5⟩
      ⟨"a1b2c3d4", "secret123", "T", "D", true, 10⟩ rfl rfl rfl).1⟩

/-- C8: for every link-listing request with a provided (nonempty) key,
the 200 response carries exactly the links whose userKey equals the
key, sorted by createdAt descending, each serialized with its message
count and share path by linkWithCountJson, with a totalLinks count, and
with no userKey field anywhere in the body. -/
theorem C8_get_links_by_key (db : DB) (k : String) (hk : k ≠ "") :
    getLinks db (some k) =
      (⟨200, .obj [("success", .bool true),
          ("links", .arr ((sortByCreatedAtDesc
            (db.links.filter (fun l => l.userKey == k))).map (linkWithCountJson db))),
          ("totalLinks", .num (sortByCreatedAtDesc
            (db.links.filter (fun l => l.userKey == k))).length)]⟩, db) ∧
    (sortByCreatedAtDesc (db.links.filter (fun l => l.userKey == k))).Perm
      (db.links.filter (fun l => l.userKey == k)) ∧
    List.Pairwise (fun a b : Link => b.createdAt ≤ a.createdAt)
      (sortByCreatedAtDesc (db.links.filter (fun l => l.userKey == k))) ∧
    (∀ l : Link, l ∈ db.links.filter (fun l => l.userKey == k) ↔
      l ∈ db.links ∧ l.userKey = k) ∧
    (getLinks db (some k)).fst.body.hasField "userKey" = false := by
  refine ⟨?_, sortByCreatedAtDesc_perm _, sortByCreatedAtDesc_sorted _, ?_, ?_⟩
  · simp [getLinks, falsyStr, hk]
  · intro l
    simp [List.mem_filter]
  · simp [getLinks, falsyStr, hk, hasField_obj, hasFieldPairs_cons,
      hasFieldPairs_nil, hasField_str, hasField_num, hasField_bool,
      hasField_arr, hasFieldList_map_linkWithCountJson]

/-- Witness: C8 at the concrete store dbEx with its stored key. -/
theorem C8_get_links_by_key_witness :
    getLinks dbEx (some "secret123") =
      (⟨200, .obj [("success", .bool true),
          ("links", .arr ((sortByCreatedAtDesc
            (dbEx.links.filter (fun l => l.userKey == "secret123"))).map
              (linkWithCountJson dbEx))),
          ("totalLinks", .num (sortByCreatedAtDesc
            (dbEx.links.filter (fun l => l.userKey == "secret123"))).length)]⟩,
       dbEx) ∧
    (getLinks dbEx (some "secret123")).fst.body.hasField "userKey" = false :=
  ⟨(C8_get_links_by_key dbEx "secret123" (by decide)).1,
   (C8_get_links_by_key dbEx "secret123" (by decide)).2.2.2.2⟩

/-- C2 counterexample: a content string whose trimmed length is 1000,
inside the 1-to-1000 band the claim says is accepted, is nevertheless
rejected with the 400 too-long validation error, because the handler
checks the untrimmed length against 1000. -/
theorem C2_counterexample_trimmed_length_in_band_rejected :
    1 ≤ (jsTrim longContent).length ∧ (jsTrim longContent).length ≤ 1000 ∧
    (sendMessage dbEx "a1b2c3d4" (some longContent) "m2" 0 0 0 11).fst =
      errResp 400 "Message too long (max 1000 characters)" ∧
    (sendMessage dbEx "a1b2c3d4" (some longContent) "m2" 0 0 0 11).snd = dbEx :=
  ⟨by decide, by decide, rfl, rfl⟩

/-- C2 (amended): for a send-message request to an existing active
link, the content is accepted (201) if and only if its trimmed length
is at least 1 and its untrimmed length is at most 1000 (the
1000-character cap is checked before trimming); otherwise the response
is a 400 validation error and the store is unchanged.  In particular
1000 plain characters are accepted, 1001 characters are rejected, and
all-whitespace content is rejected. -/
theorem C2_content_validation_amended (db : DB) (linkId c mid : String)
    (ra : Fin 5) (rb : Fin 7) (rn : Fin 999) (now : Nat) (l : Link)
    (hl : findLink db linkId = some l) (ha : l.isActive = true) :
    ((sendMessage db linkId (some c) mid ra rb rn now).fst.status = 201 ↔
      1 ≤ (jsTrim c).length ∧ c.length ≤ 1000) ∧
    ((jsTrim c).length = 0 ∨ 1000 < c.length →
      (sendMessage db linkId (some c) mid ra rb rn now).fst.status = 400 ∧
      (sendMessage db linkId (some c) mid ra rb rn now).snd = db) := by
  by_cases h0 : (jsTrim c).length = 0
  · have hres : sendMessage db linkId (some c) mid ra rb rn now =
        (errResp 400 "Message content is required", db) := by
      simp [sendMessage, h0]
    rw [hres]
    exact ⟨by simp [errResp]; omega, fun _ => ⟨rfl, rfl⟩⟩
  · have hcne : c ≠ "" := by
      intro he
      subst he
      exact h0 rfl
    by_cases hlen : 1000 < c.length
    · have hres : sendMessage db linkId (some c) mid ra rb rn now =
          (errResp 400 "Message too long (max 1000 characters)", db) := by
        simp [sendMessage, falsyStr, hcne, h0, hlen]
      rw [hres]
      exact ⟨by simp [errResp]; omega, fun _ => ⟨rfl, rfl⟩⟩
    · have hres : (sendMessage db linkId (some c) mid ra rb rn now).fst.status = 201 := by
        simp [sendMessage, falsyStr, hcne, h0, hlen, hl, ha]
      constructor
      · rw [hres]
        simp only [true_iff]
        omega
      · intro hor
        rcases hor with h | h
        · exact absurd h h0
        · exact absurd h hlen

/-- Witness: the amended C2 at the concrete store dbEx with the content
hello. -/
theorem C2_content_validation_amended_witness :
    (sendMessage dbEx "a1b2c3d4" (some "hello") "m2" 0 0 0 11).fst.status = 201 :=
  ((C2_content_validation_amended dbEx "a1b2c3d4" "hello" "m2" 0 0 0 11
      ⟨"a1b2c3d4", "secret123", "T", "D", true, 10⟩ rfl rfl).1).mpr (by decide)

/-- Witness: C4 at the concrete store dbEx, with the correct key
secret123 and the wrong key wrong1. -/
theorem C4_toggle_involution_witness :
    (toggleVisibility (toggleVisibility dbEx "a1b2c3d4" (some "secret123")).snd
        "a1b2c3d4" (some "secret123")).snd = dbEx ∧
    (toggleVisibility dbEx "a1b2c3d4" (some "wrong1")).fst.status = 401 ∧
    (toggleVisibility dbEx "a1b2c3d4" (some "wrong1")).snd = dbEx :=
  ⟨(C4_toggle_involution dbEx "a1b2c3d4"
      ⟨"a1b2c3d4", "secret123", "T", "D", true, 10⟩ rfl).1,
   ((C4_toggle_involution dbEx "a1b2c3d4"
      ⟨"a1b2c3d4", "secret123", "T", "D", true, 10⟩ rfl).2 "wrong1" (by decide)).1,
   ((C4_toggle_involution dbEx "a1b2c3d4"
      ⟨"a1b2c3d4", "secret123", "T", "D", true, 10⟩ rfl).2 "wrong1" (by decide)).2⟩

/-- Witness: C7 at a concrete empty store, a short key and a long key. -/
theorem C7_create_link_key_validation_witness :
    createLink ⟨[], []⟩ (some "abc") none none "a1b2c3d4" 7 =
      (errResp 400 "Key is required and must be at least 6 characters long",
       ⟨[], []⟩) ∧
    (createLink ⟨[], []⟩ (some "secret123") none none "a1b2c3d4" 7).fst.status = 201 ∧
    (createLink ⟨[], []⟩ (some "secret123") none none "a1b2c3d4" 7).snd.links =
      [⟨"a1b2c3d4", "secret123", "Anonymous Messages",
        "Send me anonymous messages", true, 7⟩] :=
  ⟨(C7_create_link_key_validation ⟨[], []⟩ (some "abc") none none "a1b2c3d4" 7).1
     (by decide),
   ((C7_create_link_key_validation ⟨[], []⟩ (some "secret123") none none
       "a1b2c3d4" 7).2 "secret123" rfl (by decide)).1,
   ((C7_create_link_key_validation ⟨[], []⟩ (some "secret123") none none
       "a1b2c3d4" 7).2 "secret123" rfl (by decide)).2.1⟩

end Anony
